import Mathlib

/-!
Verification of the Blarus strided-matrix library (`src/matrix.rs`).

The embedding below translates the Rust data model directly:
  * `usize` values become `Nat` (all indexing arithmetic in the library is
    non-negative; in-bounds accesses never overflow a machine word, so plain
    `Nat` arithmetic coincides with the source's `usize` arithmetic there);
  * the contiguous storage `Vec<T>` / borrowed slices `&[T]` become `List α`;
  * Rust's `Default` bound becomes `Inhabited` with `default`;
  * a panicking slice access (`data.index(id)` with `id` out of the slice)
    is modelled by `Option`: `none` is the fault, `some v` the returned value;
  * a write through `IndexMut` (`view[(r,c)] = x`) is modelled by a function
    producing the updated buffer (or `none` when the slice access faults).
-/

namespace Blarus

/-- Rust `Accessor` (src/matrix.rs lines 16-21): strides along row and column,
plus an offset into the underlying storage. -/
structure Accessor where
  stride_row : Nat
  stride_col : Nat
  offset : Nat
deriving DecidableEq, Repr

namespace Accessor

/-- Rust `Accessor::new` (src/matrix.rs lines 26-32): given strides, offset 0. -/
def new (stride_row stride_col : Nat) : Accessor :=
  { stride_row := stride_row, stride_col := stride_col, offset := 0 }

/-- Rust `Accessor::new_with_offset` (src/matrix.rs lines 35-48):
`offset = stride_row * offset_row + stride_col * offset_col`. -/
def new_with_offset (stride_row stride_col offset_row offset_col : Nat) : Accessor :=
  { stride_row := stride_row, stride_col := stride_col,
    offset := stride_row * offset_row + stride_col * offset_col }

/-- Rust `Accessor::index` (src/matrix.rs lines 51-53):
`row_id * stride_row + col_id * stride_col + offset`. -/
def index (a : Accessor) (row_id col_id : Nat) : Nat :=
  row_id * a.stride_row + col_id * a.stride_col + a.offset

end Accessor

/-- Rust `View<'a, T>` (src/matrix.rs lines 58-63): a non-owning read-only window;
`data` is the borrowed slice. -/
structure View (α : Type) where
  nb_rows : Nat
  nb_cols : Nat
  accessor : Accessor
  data : List α
deriving DecidableEq, Repr

namespace View

/-- Rust `View::new` (src/matrix.rs lines 67-74). -/
def new (nb_rows nb_cols : Nat) (accessor : Accessor) (data : List α) : View α :=
  { nb_rows := nb_rows, nb_cols := nb_cols, accessor := accessor, data := data }

/-- Rust `Index for View` (src/matrix.rs lines 92-95): compute
`id = accessor.index(row, col)` and index the borrowed slice at `id`.
The Rust slice access panics when `id` is outside the slice; here that
fault is `none`.  No `(row, col)` bounds check is performed. -/
def index (v : View α) (row col : Nat) : Option α :=
  v.data.get? (v.accessor.index row col)

end View

/-- Rust `ViewMut<'a, T>` (src/matrix.rs lines 100-105): a non-owning mutable
window; `data` is the mutably borrowed slice. -/
structure ViewMut (α : Type) where
  nb_rows : Nat
  nb_cols : Nat
  accessor : Accessor
  data : List α
deriving DecidableEq, Repr

namespace ViewMut

/-- Rust `ViewMut::new` (src/matrix.rs lines 109-116). -/
def new (nb_rows nb_cols : Nat) (accessor : Accessor) (data : List α) : ViewMut α :=
  { nb_rows := nb_rows, nb_cols := nb_cols, accessor := accessor, data := data }

/-- Rust `Index for ViewMut` (src/matrix.rs lines 134-137): identical read path
to `View::index`. -/
def index (v : ViewMut α) (row col : Nat) : Option α :=
  v.data.get? (v.accessor.index row col)

/-- Rust `IndexMut for ViewMut` (src/matrix.rs lines 143-146) followed by a store:
`view[(row, col)] = x` computes `id = accessor.index(row, col)`, panics
(`none`) when `id` is outside the borrowed slice, and otherwise overwrites
slot `id` of the slice with `x`.  No `(row, col)` bounds check is performed. -/
def write (v : ViewMut α) (row col : Nat) (x : α) : Option (ViewMut α) :=
  let id := v.accessor.index row col
  if id < v.data.length then
    some { v with data := v.data.set id x }
  else
    none

end ViewMut

/-- Rust `Matrix<T>` (src/matrix.rs lines 152-157): owns the flat buffer `data`
together with its dimensions and an `Accessor`. -/
structure Matrix (α : Type) where
  nb_rows : Nat
  nb_cols : Nat
  accessor : Accessor
  data : List α
deriving DecidableEq, Repr

/-- Rust `ViewParameters` (src/matrix.rs lines 193-198). -/
structure ViewParameters where
  start_row : Nat
  start_col : Nat
  nb_rows : Nat
  nb_cols : Nat
deriving DecidableEq, Repr

/-- Rust `ViewParameters::new` (src/matrix.rs lines 201-208). -/
def ViewParameters.new (start_row start_col nb_rows nb_cols : Nat) : ViewParameters :=
  { start_row := start_row, start_col := start_col,
    nb_rows := nb_rows, nb_cols := nb_cols }

namespace Matrix

/-- Rust `Matrix::new_row_major` (src/matrix.rs lines 164-174): a buffer of
`nb_rows * nb_cols` default-valued elements (`Vec::new` then `resize_with`)
and `Accessor::new(nb_cols, 1)`. -/
def new_row_major (α : Type) [Inhabited α] (nb_rows nb_cols : Nat) : Matrix α :=
  { nb_rows := nb_rows, nb_cols := nb_cols,
    accessor := Accessor.new nb_cols 1,
    data := List.replicate (nb_rows * nb_cols) default }

/-- Rust `Matrix::new_column_major` (src/matrix.rs lines 177-187): same buffer,
`Accessor::new(1, nb_rows)`. -/
def new_column_major (α : Type) [Inhabited α] (nb_rows nb_cols : Nat) : Matrix α :=
  { nb_rows := nb_rows, nb_cols := nb_cols,
    accessor := Accessor.new 1 nb_rows,
    data := List.replicate (nb_rows * nb_cols) default }

/-- Rust `Matrix::full_view` (src/matrix.rs lines 213-220): borrow the whole
buffer with the matrix's own accessor and full dimensions. -/
def full_view (m : Matrix α) : View α :=
  View.new m.nb_rows m.nb_cols m.accessor m.data

/-- Rust `Matrix::full_view_mut` (src/matrix.rs lines 223-230). -/
def full_view_mut (m : Matrix α) : ViewMut α :=
  ViewMut.new m.nb_rows m.nb_cols m.accessor m.data

/-- Rust `Matrix::view` (src/matrix.rs lines 233-245): borrow with
`Accessor::new_with_offset(stride_row, stride_col, start_row, start_col)`
and the requested sub-dimensions.  No validation of the request is
performed by the source. -/
def view (m : Matrix α) (params : ViewParameters) : View α :=
  View.new params.nb_rows params.nb_cols
    (Accessor.new_with_offset m.accessor.stride_row m.accessor.stride_col
      params.start_row params.start_col)
    m.data

/-- Rust `Matrix::view_mut` (src/matrix.rs lines 248-260): mutable variant of
`view`, same accessor computation, same absence of validation. -/
def view_mut (m : Matrix α) (params : ViewParameters) : ViewMut α :=
  ViewMut.new params.nb_rows params.nb_cols
    (Accessor.new_with_offset m.accessor.stride_row m.accessor.stride_col
      params.start_row params.start_col)
    m.data

/-- Modelled from the spec: direct Matrix element read.  `src/matrix.rs`
implements no `Index` on `Matrix` itself (element access goes through
views); spec §4.2 specifies it as: compute `accessor.index(row, col)` and
index the owned buffer, faulting when the offset is outside the buffer. -/
def read (m : Matrix α) (row col : Nat) : Option α :=
  m.data.get? (m.accessor.index row col)

/-- Writing through `Matrix::view_mut` and observing the owning matrix
afterwards: in Rust the `ViewMut` mutably borrows `m.data`, so a store
through the view updates the matrix's own buffer in place.  This function
performs `m.view_mut(params)[(row, col)] = x` and returns the matrix as it
stands after the view is dropped (`none` when the store faulted). -/
def write_via_view_mut (m : Matrix α) (params : ViewParameters)
    (row col : Nat) (x : α) : Option (Matrix α) :=
  ((m.view_mut params).write row col x).map (fun w => { m with data := w.data })

end Matrix

/-- Fixture of test `test_matrix_row_major_full_view`: a 3×3 row-major matrix
whose buffer is replaced by `[1, ..., 9]` in row order. -/
def sample9 : Matrix Int :=
  { Matrix.new_row_major Int 3 3 with data := [1, 2, 3, 4, 5, 6, 7, 8, 9] }

/-- Fixture of test `test_matrix_row_major_view`: a 4×4 row-major matrix
whose buffer is replaced by `[1, ..., 16]` in row order. -/
def sample16 : Matrix Int :=
  { Matrix.new_row_major Int 4 4 with
    data := [1, 2, 3, 4, 5, 6, 7, 8, 9, 10, 11, 12, 13, 14, 15, 16] }

/-- C3: `Accessor::new(sr, sc).index(r, c) = r*sr + c*sc` and
`Accessor::new_with_offset(sr, sc, or, oc).index(r, c)
 = r*sr + c*sc + (sr*or + sc*oc)` for all non-negative integers; `index`
is a pure total function (it is a Lean function into `Nat`, so it has no
side effect and no failure mode of its own). -/
theorem accessor_index_formula (sr sc orow ocol r c : Nat) :
    (Accessor.new sr sc).index r c = r * sr + c * sc ∧
    (Accessor.new_with_offset sr sc orow ocol).index r c
      = r * sr + c * sc + (sr * orow + sc * ocol) := by
  constructor <;>
    simp [Accessor.new, Accessor.new_with_offset, Accessor.index]

/-- C4: a row-major R×C matrix has accessor strides `(C, 1)` and offset 0,
so `index(r, c) = r*C + c`; a column-major one has strides `(1, R)` and
offset 0, so `index(r, c) = c*R + r`, for every in-bounds `(r, c)`. -/
theorem layout_index_formula (R C r c : Nat) (hr : r < R) (hc : c < C) :
    (Matrix.new_row_major Int R C).accessor.index r c = r * C + c ∧
    (Matrix.new_column_major Int R C).accessor.index r c = c * R + r ∧
    (Matrix.new_row_major Int R C).accessor = Accessor.new C 1 ∧
    (Matrix.new_column_major Int R C).accessor = Accessor.new 1 R := by
  refine ⟨?_, ?_, rfl, rfl⟩ <;>
    simp [Matrix.new_row_major, Matrix.new_column_major, Accessor.new,
      Accessor.index] <;> omega

/-- Witness for C4 at R = 2, C = 3, (r, c) = (1, 2). -/
theorem layout_index_formula_witness :
    (Matrix.new_row_major Int 2 3).accessor.index 1 2 = 1 * 3 + 2 ∧
    (Matrix.new_column_major Int 2 3).accessor.index 1 2 = 2 * 2 + 1 ∧
    (Matrix.new_row_major Int 2 3).accessor = Accessor.new 3 1 ∧
    (Matrix.new_column_major Int 2 3).accessor = Accessor.new 1 2 :=
  layout_index_formula 2 3 1 2 (by decide) (by decide)

/-- C1 is false on the code: no access validates `(row, col)` against the
view's dimensions.  On the 3×3 fixture, the column index 5 is out of range
(`5 ≥ nb_cols = 3`), yet reading `(0, 5)` through the full view does not
fault: it returns `6`, the buffer slot that the in-bounds position `(1, 2)`
occupies, and a write at `(0, 5)` likewise lands on that adjacent slot. -/
theorem view_no_bounds_check_cex :
    5 ≥ sample9.full_view.nb_cols ∧
    sample9.full_view.index 0 5 = some 6 ∧
    sample9.full_view.index 0 5 = sample9.full_view.index 1 2 ∧
    (sample9.full_view_mut.write 0 5 99).map ViewMut.data
      = some [1, 2, 3, 4, 5, 99, 7, 8, 9] := by
  decide

/-- C1 as amended: reads and writes on `View` and `ViewMut` validate only
that the computed offset `accessor.index(row, col)` lies inside the
borrowed slice — the access faults (returns `none`) exactly when the
offset reaches the slice length, independently of whether `row < nb_rows`
or `col < nb_cols` holds. -/
theorem access_faults_iff_offset_out_of_slice {α : Type}
    (v : View α) (w : ViewMut α) (r c : Nat) (x : α) :
    (v.index r c = none ↔ v.data.length ≤ v.accessor.index r c) ∧
    (w.index r c = none ↔ w.data.length ≤ w.accessor.index r c) ∧
    (w.write r c x = none ↔ w.data.length ≤ w.accessor.index r c) := by
  refine ⟨List.get?_eq_none, List.get?_eq_none, ?_⟩
  by_cases h : w.accessor.index r c < w.data.length <;>
    simp [ViewMut.write, h] <;> omega

/-- C2 is false on the code: `Matrix::view` and `Matrix::view_mut` never
check `start_row + nb_rows ≤ self.nb_rows` (nor the column case).  On a
2×2 matrix, the oversized request `(0, 0, 3, 3)` is not rejected: both
return a view carrying the requested 3×3 shape. -/
theorem view_request_not_validated_cex :
    0 + 3 > (Matrix.new_row_major Int 2 2).nb_rows ∧
    ((Matrix.new_row_major Int 2 2).view (ViewParameters.new 0 0 3 3)).nb_rows
      = 3 ∧
    ((Matrix.new_row_major Int 2 2).view (ViewParameters.new 0 0 3 3)).nb_cols
      = 3 ∧
    ((Matrix.new_row_major Int 2 2).view_mut
        (ViewParameters.new 0 0 3 3)).nb_rows = 3 := by
  decide

/-- C2 as amended: `view` and `view_mut` perform no validation of the
request — for every matrix and every parameter tuple, including oversized
ones, they return a view with exactly the requested dimensions and the
offset accessor, and the source matrix's buffer is carried over unchanged
(the construction modifies nothing). -/
theorem view_request_unchecked {α : Type} (m : Matrix α) (p : ViewParameters) :
    (m.view p).nb_rows = p.nb_rows ∧ (m.view p).nb_cols = p.nb_cols ∧
    (m.view_mut p).nb_rows = p.nb_rows ∧ (m.view_mut p).nb_cols = p.nb_cols ∧
    (m.view p).data = m.data ∧ (m.view_mut p).data = m.data ∧
    (m.view p).accessor = Accessor.new_with_offset m.accessor.stride_row
      m.accessor.stride_col p.start_row p.start_col ∧
    (m.view_mut p).accessor = Accessor.new_with_offset m.accessor.stride_row
      m.accessor.stride_col p.start_row p.start_col :=
  ⟨rfl, rfl, rfl, rfl, rfl, rfl, rfl, rfl⟩

/-- C5: for every matrix and every in-bounds `(r, c)`, reading `(r, c)`
through `full_view()` equals direct matrix element access (spec-modelled
`Matrix.read`, §4.2); `full_view()` and `full_view_mut()` carry the
matrix's own accessor, buffer and full dimensions, and the accessor a
constructor installs has offset 0. -/
theorem full_view_reads_as_matrix {α : Type} (m : Matrix α) (r c : Nat)
    (hr : r < m.nb_rows) (hc : c < m.nb_cols) :
    m.full_view.index r c = m.read r c ∧
    m.full_view.nb_rows = m.nb_rows ∧ m.full_view.nb_cols = m.nb_cols ∧
    m.full_view.accessor = m.accessor ∧ m.full_view.data = m.data ∧
    m.full_view_mut.nb_rows = m.nb_rows ∧ m.full_view_mut.nb_cols = m.nb_cols ∧
    m.full_view_mut.accessor = m.accessor ∧ m.full_view_mut.data = m.data ∧
    (Matrix.new_row_major Int m.nb_rows m.nb_cols).accessor.offset = 0 ∧
    (Matrix.new_column_major Int m.nb_rows m.nb_cols).accessor.offset = 0 :=
  ⟨rfl, rfl, rfl, rfl, rfl, rfl, rfl, rfl, rfl, rfl, rfl⟩

/-- Witness for C5 on the 3×3 fixture at (r, c) = (1, 2). -/
theorem full_view_reads_as_matrix_witness :
    sample9.full_view.index 1 2 = sample9.read 1 2 ∧
    sample9.full_view.nb_rows = sample9.nb_rows ∧
    sample9.full_view.nb_cols = sample9.nb_cols ∧
    sample9.full_view.accessor = sample9.accessor ∧
    sample9.full_view.data = sample9.data ∧
    sample9.full_view_mut.nb_rows = sample9.nb_rows ∧
    sample9.full_view_mut.nb_cols = sample9.nb_cols ∧
    sample9.full_view_mut.accessor = sample9.accessor ∧
    sample9.full_view_mut.data = sample9.data ∧
    (Matrix.new_row_major Int sample9.nb_rows sample9.nb_cols).accessor.offset
      = 0 ∧
    (Matrix.new_column_major Int sample9.nb_rows
        sample9.nb_cols).accessor.offset = 0 :=
  full_view_reads_as_matrix sample9 1 2 (by decide) (by decide)

/-- C6: on the 4×4 row-major fixture holding 1..16 in row order,
`view(1, 1, 2, 2)` has shape 2×2 and reads `[[6, 7], [10, 11]]`, its
element `(r, c)` coinciding with source element `(1+r, 1+c)`; in general a
sub-view carries the accessor
`new_with_offset(stride_row, stride_col, start_row, start_col)` (the
source's strides, offset `stride_row*start_row + stride_col*start_col`)
and the requested dimensions. -/
theorem subview_window :
    (sample16.view (ViewParameters.new 1 1 2 2)).nb_rows = 2 ∧
    (sample16.view (ViewParameters.new 1 1 2 2)).nb_cols = 2 ∧
    (sample16.view (ViewParameters.new 1 1 2 2)).index 0 0 = some 6 ∧
    (sample16.view (ViewParameters.new 1 1 2 2)).index 0 1 = some 7 ∧
    (sample16.view (ViewParameters.new 1 1 2 2)).index 1 0 = some 10 ∧
    (sample16.view (ViewParameters.new 1 1 2 2)).index 1 1 = some 11 ∧
    (sample16.view (ViewParameters.new 1 1 2 2)).index 0 0
      = sample16.read (1 + 0) (1 + 0) ∧
    (sample16.view (ViewParameters.new 1 1 2 2)).index 0 1
      = sample16.read (1 + 0) (1 + 1) ∧
    (sample16.view (ViewParameters.new 1 1 2 2)).index 1 0
      = sample16.read (1 + 1) (1 + 0) ∧
    (sample16.view (ViewParameters.new 1 1 2 2)).index 1 1
      = sample16.read (1 + 1) (1 + 1) ∧
    (∀ (m : Matrix Int) (p : ViewParameters),
      (m.view p).accessor = Accessor.new_with_offset m.accessor.stride_row
          m.accessor.stride_col p.start_row p.start_col ∧
      (m.view p).accessor.offset = m.accessor.stride_row * p.start_row
          + m.accessor.stride_col * p.start_col ∧
      (m.view p).accessor.stride_row = m.accessor.stride_row ∧
      (m.view p).accessor.stride_col = m.accessor.stride_col ∧
      (m.view p).nb_rows = p.nb_rows ∧ (m.view p).nb_cols = p.nb_cols) := by
  refine ⟨?_, ?_, ?_, ?_, ?_, ?_, ?_, ?_, ?_, ?_,
    fun m p => ⟨rfl, rfl, rfl, rfl, rfl, rfl⟩⟩ <;> decide

/-- C7: writing `x` at in-bounds `(r, c)` through a `view_mut` whose request
fits in the matrix, then reading the owning matrix through `full_view()` at
the source position `(start_row + r, start_col + c)`, yields `x` (for a
matrix whose own accessor has offset 0, as the constructors install). -/
theorem write_through_view_mut_visible {α : Type} (m : Matrix α)
    (p : ViewParameters) (r c : Nat) (x : α)
    (hoff : m.accessor.offset = 0)
    (hr : r < p.nb_rows) (hc : c < p.nb_cols)
    (hrows : p.start_row + p.nb_rows ≤ m.nb_rows)
    (hcols : p.start_col + p.nb_cols ≤ m.nb_cols)
    (hid : (m.view_mut p).accessor.index r c < m.data.length) :
    (m.write_via_view_mut p r c x).map
        (fun m2 => m2.full_view.index (p.start_row + r) (p.start_col + c))
      = some (some x) := by
  have hid' : (Accessor.new_with_offset m.accessor.stride_row
      m.accessor.stride_col p.start_row p.start_col).index r c
      < m.data.length := hid
  have hidx : m.accessor.index (p.start_row + r) (p.start_col + c)
      = (Accessor.new_with_offset m.accessor.stride_row m.accessor.stride_col
          p.start_row p.start_col).index r c := by
    simp [Accessor.index, Accessor.new_with_offset, hoff]
    ring
  simp [Matrix.write_via_view_mut, Matrix.view_mut, ViewMut.new, ViewMut.write,
    hid', Matrix.full_view, View.new, View.index, hidx]

/-- Witness for C7: write 7 at view position (0, 1) of `view_mut(1, 1, 2, 2)`
of a fresh 4×4 row-major matrix and read it back at source (1, 2). -/
theorem write_through_view_mut_visible_witness :
    ((Matrix.new_row_major Int 4 4).write_via_view_mut
        (ViewParameters.new 1 1 2 2) 0 1 7).map
        (fun m2 => m2.full_view.index (1 + 0) (1 + 1))
      = some (some 7) :=
  write_through_view_mut_visible (Matrix.new_row_major Int 4 4)
    (ViewParameters.new 1 1 2 2) 0 1 7 (by decide) (by decide) (by decide)
    (by decide) (by decide) (by decide)

/-- C8: writing `x` at `(r, c)` and immediately reading `(r, c)` on the same
object returns `x`, for every `(r, c)` in bounds whose offset is a valid
slice position — stated for any `ViewMut` (the only type with a write path;
this covers sub-views) and for the matrix path through `full_view_mut`. -/
theorem write_then_read_roundtrip {α : Type} (w : ViewMut α) (m : Matrix α)
    (r c : Nat) (x : α)
    (hwr : r < w.nb_rows) (hwc : c < w.nb_cols)
    (hwv : w.accessor.index r c < w.data.length)
    (hmr : r < m.nb_rows) (hmc : c < m.nb_cols)
    (hmv : m.accessor.index r c < m.data.length) :
    (w.write r c x).map (fun w2 => w2.index r c) = some (some x) ∧
    ((m.full_view_mut).write r c x).map (fun w2 => w2.index r c)
      = some (some x) := by
  constructor
  · simp [ViewMut.write, hwv, ViewMut.index]
  · simp [ViewMut.write, Matrix.full_view_mut, ViewMut.new, hmv, ViewMut.index]

/-- Witness for C8 on the 3×3 fixture at (r, c) = (2, 1), value 42. -/
theorem write_then_read_roundtrip_witness :
    ((sample9.full_view_mut).write 2 1 42).map (fun w2 => w2.index 2 1)
      = some (some 42) ∧
    ((sample9.full_view_mut).write 2 1 42).map (fun w2 => w2.index 2 1)
      = some (some 42) :=
  write_then_read_roundtrip sample9.full_view_mut sample9 2 1 42 (by decide)
    (by decide) (by decide) (by decide) (by decide) (by decide)

/-- C9: for every `nb_rows` and `nb_cols`, including zero, both constructors
succeed and allocate a buffer of exactly `nb_rows * nb_cols` elements, each
the element type's default value; zero rows or columns yields the empty
buffer. -/
theorem constructors_allocate_default_buffer (α : Type) [Inhabited α]
    (R C : Nat) :
    (Matrix.new_row_major α R C).data.length = R * C ∧
    (Matrix.new_column_major α R C).data.length = R * C ∧
    (∀ i, i < R * C → (Matrix.new_row_major α R C).data.get? i = some default) ∧
    (∀ i, i < R * C →
      (Matrix.new_column_major α R C).data.get? i = some default) ∧
    (R = 0 ∨ C = 0 →
      (Matrix.new_row_major α R C).data = [] ∧
      (Matrix.new_column_major α R C).data = []) := by
  refine ⟨by simp [Matrix.new_row_major], by simp [Matrix.new_column_major],
    ?_, ?_, ?_⟩
  · intro i hi
    simp [Matrix.new_row_major, List.get?_eq_getElem?,
      List.getElem?_replicate_of_lt hi]
  · intro i hi
    simp [Matrix.new_column_major, List.get?_eq_getElem?,
      List.getElem?_replicate_of_lt hi]
  · rintro (h | h) <;>
      simp [Matrix.new_row_major, Matrix.new_column_major, h]

/-- Witness for C9 at the boundary R = 2, C = 0, element type `Int`: the
constructors yield the empty buffer. -/
theorem constructors_allocate_default_buffer_witness :
    (Matrix.new_row_major Int 2 0).data.length = 2 * 0 ∧
    (Matrix.new_column_major Int 2 0).data.length = 2 * 0 ∧
    (∀ i, i < 2 * 0 →
      (Matrix.new_row_major Int 2 0).data.get? i = some default) ∧
    (∀ i, i < 2 * 0 →
      (Matrix.new_column_major Int 2 0).data.get? i = some default) ∧
    (2 = 0 ∨ 0 = 0 →
      (Matrix.new_row_major Int 2 0).data = [] ∧
      (Matrix.new_column_major Int 2 0).data = []) :=
  constructors_allocate_default_buffer Int 2 0

/-- C10: a write through `ViewMut` at a `(r, c)` whose offset lies in the
borrowed slice changes exactly the slot at `accessor.index(r, c)` to the
written value, leaves every other slot and the buffer length unchanged,
and leaves `nb_rows`, `nb_cols` and the accessor unchanged. -/
theorem write_frame {α : Type} (w : ViewMut α) (r c j : Nat) (x : α)
    (hid : w.accessor.index r c < w.data.length)
    (hj : j ≠ w.accessor.index r c) :
    (w.write r c x).map ViewMut.nb_rows = some w.nb_rows ∧
    (w.write r c x).map ViewMut.nb_cols = some w.nb_cols ∧
    (w.write r c x).map ViewMut.accessor = some w.accessor ∧
    (w.write r c x).map (fun w2 => w2.data.length) = some w.data.length ∧
    (w.write r c x).map (fun w2 => w2.data.get? (w.accessor.index r c))
      = some (some x) ∧
    (w.write r c x).map (fun w2 => w2.data.get? j) = some (w.data.get? j) := by
  have hj' : w.accessor.index r c ≠ j := Ne.symm hj
  refine ⟨?_, ?_, ?_, ?_, ?_, ?_⟩ <;> simp [ViewMut.write, hid, hj']

/-- Witness for C10 on the 3×3 fixture: write 5 at (1, 1) (offset 4), check
frame at slot j = 0. -/
theorem write_frame_witness :
    ((sample9.full_view_mut).write 1 1 5).map ViewMut.nb_rows
      = some sample9.full_view_mut.nb_rows ∧
    ((sample9.full_view_mut).write 1 1 5).map ViewMut.nb_cols
      = some sample9.full_view_mut.nb_cols ∧
    ((sample9.full_view_mut).write 1 1 5).map ViewMut.accessor
      = some sample9.full_view_mut.accessor ∧
    ((sample9.full_view_mut).write 1 1 5).map (fun w2 => w2.data.length)
      = some sample9.full_view_mut.data.length ∧
    ((sample9.full_view_mut).write 1 1 5).map
        (fun w2 => w2.data.get? (sample9.full_view_mut.accessor.index 1 1))
      = some (some 5) ∧
    ((sample9.full_view_mut).write 1 1 5).map (fun w2 => w2.data.get? 0)
      = some (sample9.full_view_mut.data.get? 0) :=
  write_frame sample9.full_view_mut 1 1 0 5 (by decide) (by decide)

end Blarus
